import Mathlib

/-!
Verification of the implied-volatility solver of `iv_calculator.py`.

The solver is numeric Python code built on external library primitives
(numpy's `exp`/`log`/`sqrt`/`pi`, scipy's `norm.cdf`/`norm.pdf` and
`brentq`).  We embed the repository's own code faithfully over `ℚ`,
abstracting those external primitives as a `Primitives` structure: the
control flow, bounds handling, validation policy and dispatch of the
repository are all fully represented, while the external numerics stay
parameters.  `brentq` returns an `Option ℚ`: `none` models the scipy
root-finder raising (the repository catches every exception from it and
returns `None`).
-/

/-- External numeric primitives used by `iv_calculator.py`:
`cdf`/`pdf` are scipy's standard normal `norm.cdf`/`norm.pdf`,
`exp`/`log`/`sqrt`/`pi` are numpy's, and `brentq` is scipy's bracketed
root-finder (`none` = the call raised an exception). -/
structure Primitives where
  cdf : ℚ → ℚ
  pdf : ℚ → ℚ
  exp : ℚ → ℚ
  log : ℚ → ℚ
  sqrt : ℚ → ℚ
  pi : ℚ
  brentq : (ℚ → ℚ) → ℚ → ℚ → ℚ → Option ℚ

/-- The exact option-type string the source compares against. -/
def callStr : String := "call"

/-- The canonical non-call option-type string. -/
def putStr : String := "put"

/-- The exact method string the source compares against. -/
def newtonStr : String := "newton"

/-- The other method string used by the batch driver. -/
def bisectionStr : String := "bisection"

/-- `black_scholes_call(S, K, T, r, sigma)` from `iv_calculator.py`. -/
def black_scholes_call (P : Primitives) (S K T r sigma : ℚ) : ℚ :=
  if T ≤ 0 then max (S - K) 0
  else
    let d1 := (P.log (S / K) + (r + (1/2) * sigma ^ 2) * T) / (sigma * P.sqrt T)
    let d2 := d1 - sigma * P.sqrt T
    S * P.cdf d1 - K * P.exp (-r * T) * P.cdf d2

/-- `black_scholes_put(S, K, T, r, sigma)` from `iv_calculator.py`. -/
def black_scholes_put (P : Primitives) (S K T r sigma : ℚ) : ℚ :=
  if T ≤ 0 then max (K - S) 0
  else
    let d1 := (P.log (S / K) + (r + (1/2) * sigma ^ 2) * T) / (sigma * P.sqrt T)
    let d2 := d1 - sigma * P.sqrt T
    K * P.exp (-r * T) * P.cdf (-d2) - S * P.cdf (-d1)

/-- `vega(S, K, T, r, sigma)` from `iv_calculator.py`. -/
def vega (P : Primitives) (S K T r sigma : ℚ) : ℚ :=
  if T ≤ 0 then 0
  else
    let d1 := (P.log (S / K) + (r + (1/2) * sigma ^ 2) * T) / (sigma * P.sqrt T)
    S * P.pdf d1 * P.sqrt T

/-- The source line
`bs_func = self.black_scholes_call if option_type == 'call' else self.black_scholes_put`,
shared by both solver methods. -/
def bs_func (P : Primitives) (option_type : String) : ℚ → ℚ → ℚ → ℚ → ℚ → ℚ :=
  if option_type = callStr then black_scholes_call P else black_scholes_put P

/-- The `for _ in range(max_iterations)` loop of `implied_volatility_newton`,
as fuel recursion: compute price and vega at the current sigma; break (and
afterwards return `None`) when `|vega| < 1e-10`; return sigma when
`|option_price - price| < tolerance`; otherwise take the Newton step and
clamp it to `[0.001, 5.0]`.  Fuel `0` is the loop running out of
iterations, after which the source returns `None`. -/
def newtonLoop (P : Primitives) (f : ℚ → ℚ) (option_price S K T r tolerance : ℚ) :
    Nat → ℚ → Option ℚ
  | 0, _ => none
  | Nat.succ fuel, sigma =>
    let price := f sigma
    let vega_val := vega P S K T r sigma
    if |vega_val| < 1/10^10 then none
    else
      let price_diff := option_price - price
      if |price_diff| < tolerance then some sigma
      else newtonLoop P f option_price S K T r tolerance fuel
        (max (1/1000) (min (sigma + price_diff / vega_val) 5))

/-- `implied_volatility_newton(option_price, S, K, T, r, option_type,
max_iterations, tolerance)` from `iv_calculator.py`: reject `T ≤ 0`,
start from the Brenner-Subrahmanyam guess clamped to `[0.01, 3.0]`, and
run the Newton loop. -/
def implied_volatility_newton (P : Primitives) (option_price S K T r : ℚ)
    (option_type : String) (max_iterations : Nat) (tolerance : ℚ) : Option ℚ :=
  if T ≤ 0 then none
  else
    let sigma0 := max (1/100) (min (P.sqrt (2 * P.pi / T) * (option_price / S)) 3)
    newtonLoop P (fun s => bs_func P option_type S K T r s)
      option_price S K T r tolerance max_iterations sigma0

/-- The inner `objective(sigma) = bs_func(S,K,T,r,sigma) - option_price`
closure of `implied_volatility_bisection`. -/
def objective (P : Primitives) (option_price S K T r : ℚ) (option_type : String)
    (sigma : ℚ) : ℚ :=
  bs_func P option_type S K T r sigma - option_price

/-- `implied_volatility_bisection(option_price, S, K, T, r, option_type,
tolerance)` from `iv_calculator.py`: reject `T ≤ 0`; if the objective has
the same sign at the bounds `0.001` and `5.0` (product strictly positive),
fall back to Newton with its default `max_iterations = 100` and
`tolerance = 1e-6`; otherwise call scipy's `brentq`, whose raising is
modelled by `Primitives.brentq` returning `none` (the source catches the
exception and returns `None`). -/
def implied_volatility_bisection (P : Primitives) (option_price S K T r : ℚ)
    (option_type : String) (tolerance : ℚ) : Option ℚ :=
  if T ≤ 0 then none
  else
    let obj := objective P option_price S K T r option_type
    if obj (1/1000) * obj 5 > 0 then
      implied_volatility_newton P option_price S K T r option_type 100 (1/10^6)
    else
      P.brentq obj (1/1000) 5 tolerance

/-- `calculate_iv(option_price, S, K, T, r, option_type, method)` from
`iv_calculator.py`: validate inputs, reject arbitrage violations, dispatch
on the method string, and accept the result only when it is truthy
(non-zero, as Python's `if iv` tests) and inside `[0.01, 5.0]`. -/
def calculate_iv (P : Primitives) (option_price S K T r : ℚ)
    (option_type method : String) : Option ℚ :=
  if option_price ≤ 0 ∨ S ≤ 0 ∨ K ≤ 0 ∨ T ≤ 0 then none
  else
    let intrinsic := if option_type = callStr then max (S - K) 0 else max (K - S) 0
    if option_price < intrinsic then none
    else
      let iv := if method = newtonStr then
          implied_volatility_newton P option_price S K T r option_type 100 (1/10^6)
        else
          implied_volatility_bisection P option_price S K T r option_type (1/10^6)
      match iv with
      | some v => if v ≠ 0 ∧ 1/100 ≤ v ∧ v ≤ 5 then some v else none
      | none => none

/-- One dataframe row as consumed by `calculate_iv_for_dataframe`. -/
structure Row where
  midPrice : ℚ
  spotPrice : ℚ
  strike : ℚ
  timeToExpiration : ℚ
  optionType : String

/-- The per-row body of the loop in `calculate_iv_for_dataframe`: try
`method='newton'`; if that returns `None`, retry with `method='bisection'`. -/
def row_iv (P : Primitives) (risk_free_rate : ℚ) (row : Row) : Option ℚ :=
  match calculate_iv P row.midPrice row.spotPrice row.strike row.timeToExpiration
      risk_free_rate row.optionType newtonStr with
  | some iv => some iv
  | none => calculate_iv P row.midPrice row.spotPrice row.strike row.timeToExpiration
      risk_free_rate row.optionType bisectionStr

/-- `calculate_iv_for_dataframe(df, risk_free_rate)` from `iv_calculator.py`:
build the `ivs` list row by row, attach it as the `impliedVolatility`
column (the second pair component), and keep the rows whose entry is not
NA (`df[df['impliedVolatility'].notna()]`). -/
def calculate_iv_for_dataframe (P : Primitives) (df : List Row)
    (risk_free_rate : ℚ) : List (Row × Option ℚ) :=
  let ivs := df.map (row_iv P risk_free_rate)
  (df.zip ivs).filter (fun p => (p.2).isSome)

/-- A concrete instantiation of the external primitives used to exercise
the solver on closed inputs: every primitive is a constant function, so
`black_scholes_call` degenerates to `S - K` for `T > 0` and `vega` to `S`. -/
def P0 : Primitives where
  cdf := fun _ => 1
  pdf := fun _ => 1
  exp := fun _ => 1
  log := fun _ => 0
  sqrt := fun _ => 1
  pi := 1
  brentq := fun _ _ _ _ => none

/-- A primitives instantiation whose cdf satisfies the standard normal
symmetry `cdf x + cdf (-x) = 1`, used to exercise put-call parity. -/
def Ppar : Primitives where
  cdf := fun _ => 1/2
  pdf := fun _ => 1
  exp := fun _ => 1
  log := fun _ => 0
  sqrt := fun _ => 1
  pi := 1
  brentq := fun _ _ _ _ => none

/-- A concrete option-type string that is not exactly `call`. -/
def capCall : String := "Call"

/-- A concrete method string that is not exactly `newton`. -/
def capPut : String := "PUT"

/-- A row on which Newton converges (price 1 = the degenerate `P0` price
of a spot-2 strike-1 contract). -/
def row1 : Row where
  midPrice := 1
  spotPrice := 2
  strike := 1
  timeToExpiration := 1
  optionType := callStr

/-- A row with a non-positive market price, rejected by both methods. -/
def row2 : Row where
  midPrice := 0
  spotPrice := 2
  strike := 1
  timeToExpiration := 1
  optionType := callStr

/-- A two-row batch: one solvable row, one row failing both methods. -/
def df0 : List Row := [row1, row2]

/-! ## Auxiliary lemmas -/

theorem putStr_ne_callStr : putStr ≠ callStr := by decide

theorem bisectionStr_ne_newtonStr : bisectionStr ≠ newtonStr := by decide

theorem newtonLoop_zero_eq (P : Primitives) (f : ℚ → ℚ) (op S K T r tol sigma : ℚ) :
    newtonLoop P f op S K T r tol 0 sigma = none := rfl

theorem newtonLoop_succ_eq (P : Primitives) (f : ℚ → ℚ) (op S K T r tol : ℚ)
    (n : Nat) (sigma : ℚ) :
    newtonLoop P f op S K T r tol (n+1) sigma =
      if |vega P S K T r sigma| < 1/10^10 then none
      else if |op - f sigma| < tol then some sigma
      else newtonLoop P f op S K T r tol n
        (max (1/1000) (min (sigma + (op - f sigma) / vega P S K T r sigma) 5)) := rfl

theorem newtonLoop_some_bound (P : Primitives) (f : ℚ → ℚ) (op S K T r tol : ℚ) :
    ∀ (fuel : Nat) (sigma out : ℚ),
      newtonLoop P f op S K T r tol fuel sigma = some out → |op - f out| < tol := by
  intro fuel
  induction fuel with
  | zero =>
    intro sigma out h
    exact Option.noConfusion h
  | succ n ih =>
    intro sigma out h
    rw [newtonLoop_succ_eq] at h
    by_cases h1 : |vega P S K T r sigma| < 1/10^10
    · rw [if_pos h1] at h
      exact Option.noConfusion h
    · rw [if_neg h1] at h
      by_cases h2 : |op - f sigma| < tol
      · rw [if_pos h2] at h
        cases h
        exact h2
      · rw [if_neg h2] at h
        exact ih _ _ h

theorem newton_some_aux (P : Primitives) (op S K T r : ℚ) (ot : String)
    (mi : Nat) (tol sigma : ℚ)
    (h : implied_volatility_newton P op S K T r ot mi tol = some sigma) :
    0 < T ∧ |op - bs_func P ot S K T r sigma| < tol := by
  rw [implied_volatility_newton] at h
  by_cases hT : T ≤ 0
  · rw [if_pos hT] at h
    exact Option.noConfusion h
  · rw [if_neg hT] at h
    exact ⟨not_le.mp hT, newtonLoop_some_bound P _ op S K T r tol mi _ _ h⟩

theorem newton_T_nonpos_aux (P : Primitives) (op S K T r : ℚ) (ot : String)
    (mi : Nat) (tol : ℚ) (hT : T ≤ 0) :
    implied_volatility_newton P op S K T r ot mi tol = none := by
  rw [implied_volatility_newton, if_pos hT]

theorem invalid_aux (P : Primitives) (op S K T r : ℚ) (ot m : String)
    (h : op ≤ 0 ∨ S ≤ 0 ∨ K ≤ 0 ∨ T ≤ 0) :
    calculate_iv P op S K T r ot m = none := by
  rw [calculate_iv, if_pos h]

theorem arbitrage_aux (P : Primitives) (op S K T r : ℚ) (ot m : String)
    (h : op < (if ot = callStr then max (S - K) 0 else max (K - S) 0)) :
    calculate_iv P op S K T r ot m = none := by
  simp only [calculate_iv]
  by_cases h1 : op ≤ 0 ∨ S ≤ 0 ∨ K ≤ 0 ∨ T ≤ 0
  · rw [if_pos h1]
  · rw [if_neg h1, if_pos h]

theorem band_aux (P : Primitives) (op S K T r : ℚ) (ot m : String) (v : ℚ)
    (h : calculate_iv P op S K T r ot m = some v) :
    (1/100 ≤ v ∧ v ≤ 5) ∧
      (if m = newtonStr then implied_volatility_newton P op S K T r ot 100 (1/10^6)
       else implied_volatility_bisection P op S K T r ot (1/10^6)) = some v := by
  simp only [calculate_iv] at h
  by_cases h1 : op ≤ 0 ∨ S ≤ 0 ∨ K ≤ 0 ∨ T ≤ 0
  · rw [if_pos h1] at h
    exact Option.noConfusion h
  rw [if_neg h1] at h
  by_cases h2 : op < (if ot = callStr then max (S - K) 0 else max (K - S) 0)
  · rw [if_pos h2] at h
    exact Option.noConfusion h
  rw [if_neg h2] at h
  split at h
  · rename_i w heq
    by_cases h3 : w ≠ 0 ∧ 1/100 ≤ w ∧ w ≤ 5
    · rw [if_pos h3] at h
      cases h
      exact ⟨⟨h3.2.1, h3.2.2⟩, heq⟩
    · rw [if_neg h3] at h
      exact Option.noConfusion h
  · exact Option.noConfusion h

theorem bisect_fallback_aux (P : Primitives) (op S K T r : ℚ) (ot : String)
    (tol : ℚ) (hT : 0 < T)
    (h : objective P op S K T r ot (1/1000) * objective P op S K T r ot 5 > 0) :
    implied_volatility_bisection P op S K T r ot tol =
      implied_volatility_newton P op S K T r ot 100 (1/10^6) := by
  simp only [implied_volatility_bisection]
  rw [if_neg (not_le.mpr hT), if_pos h]

theorem bisect_brentq_aux (P : Primitives) (op S K T r : ℚ) (ot : String)
    (tol : ℚ) (hT : 0 < T)
    (h : ¬objective P op S K T r ot (1/1000) * objective P op S K T r ot 5 > 0) :
    implied_volatility_bisection P op S K T r ot tol =
      P.brentq (objective P op S K T r ot) (1/1000) 5 tol := by
  simp only [implied_volatility_bisection]
  rw [if_neg (not_le.mpr hT), if_neg h]

theorem bisect_none_aux (P : Primitives) (op S K T r : ℚ) (ot : String)
    (tol : ℚ)
    (hsign : objective P op S K T r ot (1/1000) * objective P op S K T r ot 5 ≤ 0)
    (hb : P.brentq (objective P op S K T r ot) (1/1000) 5 tol = none) :
    implied_volatility_bisection P op S K T r ot tol = none := by
  by_cases hT : T ≤ 0
  · simp only [implied_volatility_bisection]
    rw [if_pos hT]
  · rw [bisect_brentq_aux P op S K T r ot tol (not_le.mp hT) (not_lt.mpr hsign), hb]

theorem bs_func_of_ne_call (P : Primitives) (ot : String) (hot : ot ≠ callStr) :
    bs_func P ot = black_scholes_put P := by
  rw [bs_func, if_neg hot]

theorem newton_ot_aux (P : Primitives) (op S K T r : ℚ) (ot : String)
    (mi : Nat) (tol : ℚ) (hot : ot ≠ callStr) :
    implied_volatility_newton P op S K T r ot mi tol =
      implied_volatility_newton P op S K T r putStr mi tol := by
  simp only [implied_volatility_newton, bs_func_of_ne_call P ot hot,
    bs_func_of_ne_call P putStr putStr_ne_callStr]

theorem objective_ot_aux (P : Primitives) (op S K T r : ℚ) (ot : String)
    (hot : ot ≠ callStr) :
    objective P op S K T r ot = objective P op S K T r putStr := by
  funext sigma
  simp only [objective, bs_func_of_ne_call P ot hot,
    bs_func_of_ne_call P putStr putStr_ne_callStr]

theorem bisect_ot_aux (P : Primitives) (op S K T r : ℚ) (ot : String)
    (tol : ℚ) (hot : ot ≠ callStr) :
    implied_volatility_bisection P op S K T r ot tol =
      implied_volatility_bisection P op S K T r putStr tol := by
  simp only [implied_volatility_bisection, objective_ot_aux P op S K T r ot hot,
    newton_ot_aux P op S K T r ot 100 (1/10^6) hot]

theorem zip_filter_eq_filterMap (g : Row → Option ℚ) (df : List Row) :
    ((df.zip (df.map g)).filter fun p => (p.2).isSome)
      = df.filterMap (fun row => (g row).map (fun v => (row, some v))) := by
  induction df with
  | nil => rfl
  | cons row rest ih =>
    simp only [List.map_cons, List.zip_cons_cons, List.filter_cons, List.filterMap_cons]
    cases hg : g row with
    | none => simpa [hg] using ih
    | some v => simpa [hg] using ih

theorem row_iv_newton_some_aux (P : Primitives) (rf : ℚ) (row : Row) (v : ℚ)
    (h : calculate_iv P row.midPrice row.spotPrice row.strike row.timeToExpiration
      rf row.optionType newtonStr = some v) :
    row_iv P rf row = some v := by
  rw [row_iv, h]

theorem row_iv_newton_none_aux (P : Primitives) (rf : ℚ) (row : Row)
    (h : calculate_iv P row.midPrice row.spotPrice row.strike row.timeToExpiration
      rf row.optionType newtonStr = none) :
    row_iv P rf row =
      calculate_iv P row.midPrice row.spotPrice row.strike row.timeToExpiration
        rf row.optionType bisectionStr := by
  rw [row_iv, h]

theorem P0_newton_eval :
    implied_volatility_newton P0 1 2 1 1 0 callStr 100 (1/10^6) = some (1/2) := by
  rw [implied_volatility_newton, if_neg (by norm_num),
    show (100:Nat) = 99+1 from rfl, newtonLoop_succ_eq]
  norm_num [P0, bs_func, black_scholes_call, vega, callStr]

theorem P0_calc_eval : calculate_iv P0 1 2 1 1 0 callStr newtonStr = some (1/2) := by
  simp only [calculate_iv, P0_newton_eval]
  norm_num [callStr, newtonStr]

/-! ## Claim theorems -/

/-- Claim C2: Newton-Raphson method — for `T ≤ 0` nothing is attempted and
not-found is returned; the loop starts from the clamped Brenner-Subrahmanyam
guess, caps at `max_iterations`, aborts on vanishing vega, clamps each step
(all embedded verbatim in `implied_volatility_newton`/`newtonLoop`); and any
sigma it returns satisfies `|marketPrice - price(sigma)| < tolerance`. -/
theorem implied_volatility_newton_converged (P : Primitives) (op S K T r : ℚ)
    (ot : String) (mi : Nat) (tol sigma : ℚ) :
    (T ≤ 0 → implied_volatility_newton P op S K T r ot mi tol = none) ∧
    (implied_volatility_newton P op S K T r ot mi tol = some sigma →
      0 < T ∧ |op - bs_func P ot S K T r sigma| < tol) :=
  ⟨fun hT => newton_T_nonpos_aux P op S K T r ot mi tol hT,
   fun h => newton_some_aux P op S K T r ot mi tol sigma h⟩

/-- Witness for claim C2 at concrete inputs. -/
theorem implied_volatility_newton_converged_witness :
    implied_volatility_newton P0 1 2 1 0 0 callStr 100 (1/10^6) = none ∧
    (0 < (1:ℚ) ∧ |(1:ℚ) - bs_func P0 callStr 2 1 1 0 (1/2)| < 1/10^6) :=
  ⟨(implied_volatility_newton_converged P0 1 2 1 0 0 callStr 100 (1/10^6) 0).1
      (by norm_num),
   (implied_volatility_newton_converged P0 1 2 1 1 0 callStr 100 (1/10^6) (1/2)).2
      P0_newton_eval⟩

/-- Claim C3: for `T > 0` the bisection method is a hybrid: when the
objective has the same sign at both bounds (product strictly positive) it
falls back to Newton-Raphson on the same inputs, otherwise it hands the
bracketed problem to the scipy root-finder, whose failure (`none`)
propagates as not-found. -/
theorem implied_volatility_bisection_hybrid (P : Primitives) (op S K T r tol : ℚ)
    (ot : String) (hT : 0 < T) :
    (objective P op S K T r ot (1/1000) * objective P op S K T r ot 5 > 0 →
      implied_volatility_bisection P op S K T r ot tol =
        implied_volatility_newton P op S K T r ot 100 (1/10^6)) ∧
    (¬objective P op S K T r ot (1/1000) * objective P op S K T r ot 5 > 0 →
      implied_volatility_bisection P op S K T r ot tol =
        P.brentq (objective P op S K T r ot) (1/1000) 5 tol) :=
  ⟨fun h => bisect_fallback_aux P op S K T r ot tol hT h,
   fun h => bisect_brentq_aux P op S K T r ot tol hT h⟩

/-- Witness for claim C3 at concrete inputs: one same-sign instance
(falls back to Newton) and one bracketed instance (goes to `brentq`). -/
theorem implied_volatility_bisection_hybrid_witness :
    implied_volatility_bisection P0 5 2 1 1 0 callStr (1/10^6) =
      implied_volatility_newton P0 5 2 1 1 0 callStr 100 (1/10^6) ∧
    implied_volatility_bisection P0 1 2 1 1 0 callStr (1/10^6) =
      P0.brentq (objective P0 1 2 1 1 0 callStr) (1/1000) 5 (1/10^6) :=
  ⟨(implied_volatility_bisection_hybrid P0 5 2 1 1 0 (1/10^6) callStr
      (by norm_num)).1
      (by norm_num [objective, bs_func, black_scholes_call, callStr, P0]),
   (implied_volatility_bisection_hybrid P0 1 2 1 1 0 (1/10^6) callStr
      (by norm_num)).2
      (by norm_num [objective, bs_func, black_scholes_call, callStr, P0])⟩

/-- Claim C4: whenever the market price is strictly below the intrinsic
value of the option kind, `calculate_iv` returns not-found — for every
choice of external primitives and either method string, so no root-finding
iteration can influence the outcome. -/
theorem calculate_iv_arbitrage_rejection (P : Primitives) (op S K T r : ℚ)
    (ot m : String)
    (h : op < (if ot = callStr then max (S - K) 0 else max (K - S) 0)) :
    calculate_iv P op S K T r ot m = none :=
  arbitrage_aux P op S K T r ot m h

/-- Witness for claim C4: price 1 below the call intrinsic value 2. -/
theorem calculate_iv_arbitrage_rejection_witness :
    calculate_iv P0 1 3 1 1 0 callStr newtonStr = none :=
  calculate_iv_arbitrage_rejection P0 1 3 1 1 0 callStr newtonStr
    (by norm_num [max_def])

/-- Claim C5: non-positive market price, spot, strike or time-to-expiration
makes `calculate_iv` return not-found — for every choice of external
primitives and either method string, so no iteration is performed. -/
theorem calculate_iv_invalid_rejection (P : Primitives) (op S K T r : ℚ)
    (ot m : String) (h : op ≤ 0 ∨ S ≤ 0 ∨ K ≤ 0 ∨ T ≤ 0) :
    calculate_iv P op S K T r ot m = none :=
  invalid_aux P op S K T r ot m h

/-- Witness for claim C5: market price 0 is rejected. -/
theorem calculate_iv_invalid_rejection_witness :
    calculate_iv P0 0 2 1 1 0 callStr newtonStr = none :=
  calculate_iv_invalid_rejection P0 0 2 1 1 0 callStr newtonStr
    (Or.inl (by norm_num))

/-- Claim C6: every value `calculate_iv` returns lies in `[0.01, 5.0]`, and
it is exactly the value the dispatched solver produced — an out-of-band
solver result is discarded as not-found, never clamped and returned. -/
theorem calculate_iv_band_postcondition (P : Primitives) (op S K T r : ℚ)
    (ot m : String) (v : ℚ) (h : calculate_iv P op S K T r ot m = some v) :
    (1/100 ≤ v ∧ v ≤ 5) ∧
      (if m = newtonStr then implied_volatility_newton P op S K T r ot 100 (1/10^6)
       else implied_volatility_bisection P op S K T r ot (1/10^6)) = some v :=
  band_aux P op S K T r ot m v h

/-- Witness for claim C6 at a converging concrete instance. -/
theorem calculate_iv_band_postcondition_witness :
    ((1:ℚ)/100 ≤ 1/2 ∧ (1:ℚ)/2 ≤ 5) ∧
      (if newtonStr = newtonStr then
        implied_volatility_newton P0 1 2 1 1 0 callStr 100 (1/10^6)
       else implied_volatility_bisection P0 1 2 1 1 0 callStr (1/10^6)) = some (1/2) :=
  calculate_iv_band_postcondition P0 1 2 1 1 0 callStr newtonStr (1/2) P0_calc_eval

/-- Claim C7: the batch driver equals a filterMap over the rows — each row
is solved with Newton first, retried with bisection exactly when Newton
returns not-found, rows failing both are dropped, and survivors keep their
original order with the implied volatility attached. -/
theorem calculate_iv_for_dataframe_correct (P : Primitives) (df : List Row)
    (rf : ℚ) :
    calculate_iv_for_dataframe P df rf =
      df.filterMap (fun row => (row_iv P rf row).map (fun v => (row, some v))) ∧
    ∀ row : Row,
      (∀ v, calculate_iv P row.midPrice row.spotPrice row.strike
          row.timeToExpiration rf row.optionType newtonStr = some v →
        row_iv P rf row = some v) ∧
      (calculate_iv P row.midPrice row.spotPrice row.strike
          row.timeToExpiration rf row.optionType newtonStr = none →
        row_iv P rf row =
          calculate_iv P row.midPrice row.spotPrice row.strike
            row.timeToExpiration rf row.optionType bisectionStr) :=
  ⟨zip_filter_eq_filterMap (row_iv P rf) df,
   fun row => ⟨fun v h => row_iv_newton_some_aux P rf row v h,
               fun h => row_iv_newton_none_aux P rf row h⟩⟩

/-- Witness for claim C7 on a concrete two-row batch. -/
theorem calculate_iv_for_dataframe_correct_witness :
    calculate_iv_for_dataframe P0 df0 0 =
      df0.filterMap (fun row => (row_iv P0 0 row).map (fun v => (row, some v))) ∧
    row_iv P0 0 row1 = some (1/2) :=
  ⟨(calculate_iv_for_dataframe_correct P0 df0 0).1,
   ((calculate_iv_for_dataframe_correct P0 df0 0).2 row1).1 (1/2) P0_calc_eval⟩

/-- Claim C8: the solver is a total function into `Option`; every failure
mode — invalid input, arbitrage violation, exhausted iteration cap,
vanishing vega, a raising bracketed root-finder, and an out-of-band result
— surfaces uniformly as the not-found result `none`. -/
theorem calculate_iv_never_throws (P : Primitives) (op S K T r tol : ℚ)
    (ot m : String) (f : ℚ → ℚ) (sigma : ℚ) (n : Nat) :
    (op ≤ 0 ∨ S ≤ 0 ∨ K ≤ 0 ∨ T ≤ 0 → calculate_iv P op S K T r ot m = none) ∧
    (op < (if ot = callStr then max (S - K) 0 else max (K - S) 0) →
      calculate_iv P op S K T r ot m = none) ∧
    newtonLoop P f op S K T r tol 0 sigma = none ∧
    (|vega P S K T r sigma| < 1/10^10 →
      newtonLoop P f op S K T r tol (n+1) sigma = none) ∧
    (objective P op S K T r ot (1/1000) * objective P op S K T r ot 5 ≤ 0 →
      P.brentq (objective P op S K T r ot) (1/1000) 5 tol = none →
      implied_volatility_bisection P op S K T r ot tol = none) ∧
    (∀ v, calculate_iv P op S K T r ot m = some v → 1/100 ≤ v ∧ v ≤ 5) :=
  ⟨fun h => invalid_aux P op S K T r ot m h,
   fun h => arbitrage_aux P op S K T r ot m h,
   newtonLoop_zero_eq P f op S K T r tol sigma,
   fun h => by rw [newtonLoop_succ_eq, if_pos h],
   fun hsign hb => bisect_none_aux P op S K T r ot tol hsign hb,
   fun v h => (band_aux P op S K T r ot m v h).1⟩

/-- Witness for claim C8: each failure mode exercised at concrete inputs. -/
theorem calculate_iv_never_throws_witness :
    calculate_iv P0 0 2 1 1 0 callStr newtonStr = none ∧
    calculate_iv P0 2 4 1 1 0 callStr newtonStr = none ∧
    newtonLoop P0 (fun _ => 0) 1 2 1 1 0 (1/10^6) 0 1 = none ∧
    newtonLoop P0 (fun _ => 0) 1 2 1 0 0 (1/10^6) 1 1 = none ∧
    implied_volatility_bisection P0 1 2 1 1 0 callStr (1/10^6) = none ∧
    ((1:ℚ)/100 ≤ 1/2 ∧ (1:ℚ)/2 ≤ 5) :=
  ⟨(calculate_iv_never_throws P0 0 2 1 1 0 (1/10^6) callStr newtonStr
      (fun _ => 0) 1 0).1 (Or.inl (by norm_num)),
   (calculate_iv_never_throws P0 2 4 1 1 0 (1/10^6) callStr newtonStr
      (fun _ => 0) 1 0).2.1 (by norm_num [max_def]),
   (calculate_iv_never_throws P0 1 2 1 1 0 (1/10^6) callStr newtonStr
      (fun _ => 0) 1 0).2.2.1,
   (calculate_iv_never_throws P0 1 2 1 0 0 (1/10^6) callStr newtonStr
      (fun _ => 0) 1 0).2.2.2.1 (by norm_num [vega]),
   (calculate_iv_never_throws P0 1 2 1 1 0 (1/10^6) callStr newtonStr
      (fun _ => 0) 1 0).2.2.2.2.1
      (by norm_num [objective, bs_func, black_scholes_call, callStr, P0])
      (by norm_num [P0]),
   (calculate_iv_never_throws P0 1 2 1 1 0 (1/10^6) callStr newtonStr
      (fun _ => 0) 1 0).2.2.2.2.2 (1/2) P0_calc_eval⟩

/-- Claim C9: put-call parity — for positive spot, strike, volatility and
time, and a cdf with the standard normal symmetry, the call price minus
the put price equals `S - K*exp(-r*T)` exactly, hence within 1e-6. -/
theorem put_call_parity (P : Primitives) (S K T r sigma : ℚ)
    (hS : 0 < S) (hK : 0 < K) (hsigma : 0 < sigma) (hT : 0 < T)
    (hcdf : ∀ x, P.cdf x + P.cdf (-x) = 1) :
    black_scholes_call P S K T r sigma - black_scholes_put P S K T r sigma
        = S - K * P.exp (-r * T) ∧
    |black_scholes_call P S K T r sigma - black_scholes_put P S K T r sigma
        - (S - K * P.exp (-r * T))| < 1/10^6 := by
  have key : ∀ a b : ℚ,
      S * P.cdf a - K * P.exp (-r * T) * P.cdf b
          - (K * P.exp (-r * T) * P.cdf (-b) - S * P.cdf (-a))
        = S - K * P.exp (-r * T) := by
    intro a b
    have h1 := hcdf a
    have h2 := hcdf b
    linear_combination S * h1 - K * P.exp (-r * T) * h2
  have heq : black_scholes_call P S K T r sigma - black_scholes_put P S K T r sigma
      = S - K * P.exp (-r * T) := by
    simp only [black_scholes_call, black_scholes_put, if_neg (not_le.mpr hT)]
    exact key _ _
  exact ⟨heq, by rw [heq, sub_self, abs_zero]; norm_num⟩

/-- Witness for claim C9 with a symmetric cdf at concrete inputs. -/
theorem put_call_parity_witness :
    (black_scholes_call Ppar 2 1 1 0 1 - black_scholes_put Ppar 2 1 1 0 1
        = 2 - 1 * Ppar.exp (-0 * 1)) ∧
    |black_scholes_call Ppar 2 1 1 0 1 - black_scholes_put Ppar 2 1 1 0 1
        - (2 - 1 * Ppar.exp (-0 * 1))| < 1/10^6 :=
  put_call_parity Ppar 2 1 1 0 1 (by norm_num) (by norm_num) (by norm_num)
    (by norm_num) (fun x => by norm_num [Ppar])

/-- Claim C10: total string dispatch — any option-type string other than
the exact `call` selects the put pricing function and the put intrinsic
value, making `calculate_iv` agree with the canonical `put` string, and
any method string other than the exact `newton` dispatches to bisection;
every string value yields an ordinary `Option` result. -/
theorem string_dispatch_total (P : Primitives) (op S K T r : ℚ) (ot m : String)
    (hot : ot ≠ callStr) (hm : m ≠ newtonStr) :
    bs_func P ot = black_scholes_put P ∧
    (if ot = callStr then max (S - K) 0 else max (K - S) 0) = max (K - S) 0 ∧
    calculate_iv P op S K T r ot m = calculate_iv P op S K T r putStr m ∧
    calculate_iv P op S K T r ot m = calculate_iv P op S K T r ot bisectionStr := by
  refine ⟨bs_func_of_ne_call P ot hot, if_neg hot, ?_, ?_⟩
  · simp only [calculate_iv, if_neg hot, if_neg putStr_ne_callStr,
      newton_ot_aux P op S K T r ot 100 (1/10^6) hot,
      bisect_ot_aux P op S K T r ot (1/10^6) hot]
  · simp only [calculate_iv, if_neg hm, if_neg bisectionStr_ne_newtonStr]

/-- Witness for claim C10 with a capitalized option type and a garbage
method string. -/
theorem string_dispatch_total_witness :
    bs_func P0 capCall = black_scholes_put P0 ∧
    (if capCall = callStr then max ((3:ℚ) - 1) 0 else max ((1:ℚ) - 3) 0)
        = max ((1:ℚ) - 3) 0 ∧
    calculate_iv P0 1 3 1 1 0 capCall capPut = calculate_iv P0 1 3 1 1 0 putStr capPut ∧
    calculate_iv P0 1 3 1 1 0 capCall capPut =
      calculate_iv P0 1 3 1 1 0 capCall bisectionStr :=
  string_dispatch_total P0 1 3 1 1 0 capCall capPut (by decide) (by decide)
